import Mathlib

/-!
Verification of the Split-Keyboard firmware (`Programm.py`): a control loop
driving 9 switched LEDs, a brightness encoder and a volume encoder.

The module-level Python state (`brightness`, `volume`, `led_states`, the
NeoPixel buffer `pixels` and its `brightness` attribute) is embedded as the
record `SysState`.  Hardware / OS side effects (`pixels.show()`,
`SetMasterVolumeLevelScalar`, `print` diagnostics) are recorded as an
explicit `Effect` trace returned next to the new state.  Brightness is
modelled with exact rationals, volume with integers, matching the arithmetic
the source performs (`steps * 0.02`, `steps * 2`, `max`/`min` clamping).
-/

namespace SplitKeyboard

/-- RGB triple as stored in the NeoPixel buffer. -/
abbrev RGB := Nat × Nat × Nat

/-- Constant `NUM_LEDS = 9` from the source. -/
def NUM_LEDS : Nat := 9

/-- Pure black, written `(0, 0, 0)` in the source. -/
def black : RGB := (0, 0, 0)

/-- The fixed palette `led_colors` from the source. -/
def led_colors : List RGB :=
  [(255, 0, 0), (0, 255, 0), (0, 0, 255), (255, 255, 0), (0, 255, 255),
   (255, 0, 255), (255, 165, 0), (128, 0, 128), (255, 255, 255)]

/-- Observable side effects of the firmware: the strip commit
(`pixels.show()`), the audio push (`SetMasterVolumeLevelScalar`), and the
`print` diagnostics, each with the data the source prints. -/
inductive Effect where
  | showStrip : Effect
  | sinkPush : ℚ → Effect
  | logAudioError : Effect
  | logBrightness : ℤ → Effect
  | logVolume : ℤ → Effect
  | logLedOn : Nat → RGB → Effect
  | logLedOff : Nat → Effect
  | logShutdown : Effect
  | logGoodbye : Effect
  deriving DecidableEq

/-- The module-level mutable state of `Programm.py`: `brightness`, `volume`,
`led_states`, the pixel buffer, and the NeoPixel driver brightness scalar
(`pixels.brightness`). -/
structure SysState where
  brightness : ℚ
  volume : ℤ
  led_states : List Bool
  pixels : List RGB
  stripBrightness : ℚ
  deriving DecidableEq

/-- Model of `set_system_volume(vol)`: if `audio_available`, try to push
`vol / 100.0` to the audio endpoint; a raised exception (modelled by the
`sinkFails` oracle) is caught and logged; if audio is unavailable the call
does nothing.  The function always returns normally. -/
def set_system_volume (audio_available : Bool) (sinkFails : Bool) (vol : ℤ) :
    List Effect :=
  if audio_available then
    if sinkFails then [Effect.logAudioError]
    else [Effect.sinkPush ((vol : ℚ) / 100)]
  else []

/-- Model of `update_brightness(steps)`: clamp `brightness + steps * 0.02` into
`[0, 1]`, store it, and when the change exceeds `0.01` push the new scalar
to the driver (`pixels.brightness = ...`), commit (`pixels.show()`) and log. -/
def update_brightness (s : SysState) (steps : ℤ) : SysState × List Effect :=
  let old := s.brightness
  let b : ℚ := max 0 (min 1 (old + (steps : ℚ) * (2 / 100)))
  if 1 / 100 < |b - old| then
    ({ s with brightness := b, stripBrightness := b },
      [Effect.showStrip, Effect.logBrightness ⌊b * 100⌋])
  else
    ({ s with brightness := b }, [])

/-- Model of `update_volume(steps)`: clamp `volume + steps * 2` into `[0, 100]`,
store it, and when the change exceeds `1` call `set_system_volume` and log. -/
def update_volume (audio_available : Bool) (s : SysState) (steps : ℤ)
    (sinkFails : Bool) : SysState × List Effect :=
  let old := s.volume
  let v : ℤ := max 0 (min 100 (old + steps * 2))
  if 1 < |v - old| then
    ({ s with volume := v },
      set_system_volume audio_available sinkFails v ++ [Effect.logVolume v])
  else
    ({ s with volume := v }, [])

/-- Model of `toggle_led(index)`: flip `led_states[index]`, write the pixel slot
(assigned color when turning on, black when turning off), log, and commit
with `pixels.show()`. -/
def toggle_led (s : SysState) (index : Nat) : SysState × List Effect :=
  let st := !(s.led_states.getD index false)
  let states := s.led_states.set index st
  if st then
    ({ s with
        led_states := states
        pixels := s.pixels.set index (led_colors.getD index black) },
      [Effect.logLedOn index (led_colors.getD index black), Effect.showStrip])
  else
    ({ s with led_states := states, pixels := s.pixels.set index black },
      [Effect.logLedOff index, Effect.showStrip])

/-- Model of `setup_switch_handlers()`: one handler per switch; `lambda idx=i:
toggle_led(idx)` binds the loop index as a default argument, so handler `i`
always toggles LED `i`. -/
def setup_switch_handlers : List (SysState → SysState × List Effect) :=
  (List.range NUM_LEDS).map (fun i => fun s => toggle_led s i)

/-- One state-changing operation of the firmware: a switch press edge
(`toggle_led i`), or an encoder delta fed to one of the integrators.  The
`Bool` on `updVolume` is the failure oracle for the guarded audio call. -/
inductive Op where
  | toggle : Nat → Op
  | updBrightness : ℤ → Op
  | updVolume : ℤ → Bool → Op
  deriving DecidableEq

/-- Apply one operation to the state, returning the new state and the
effect trace of the call. -/
def step (audio_available : Bool) (s : SysState) : Op → SysState × List Effect
  | Op.toggle i => toggle_led s i
  | Op.updBrightness d => update_brightness s d
  | Op.updVolume d f => update_volume audio_available s d f

/-- Run a sequence of operations, keeping the final state. -/
def run (audio_available : Bool) (s : SysState) (ops : List Op) : SysState :=
  ops.foldl (fun st op => (step audio_available st op).1) s

/-- The state after the startup phase of `main`: `brightness = 0.5`, `volume = 50`,
all LEDs off, buffer filled with black (`pixels.fill((0,0,0))`), driver
brightness `0.5` (the `NeoPixel(..., brightness=0.5, ...)` constructor). -/
def initState : SysState :=
  { brightness := 1 / 2
    volume := 50
    led_states := List.replicate NUM_LEDS false
    pixels := List.replicate NUM_LEDS black
    stripBrightness := 1 / 2 }

/-- Both stored parameters are in range: brightness in `[0, 1]`, volume in
`[0, 100]`. -/
def inBounds (s : SysState) : Prop :=
  0 ≤ s.brightness ∧ s.brightness ≤ 1 ∧ 0 ≤ s.volume ∧ s.volume ≤ 100

/-- The rendering invariant of the LED state machine: the two arrays have
their fixed length `9`, and every pixel slot holds the assigned color when
the LED is on and pure black when it is off. -/
def pixelInv (s : SysState) : Prop :=
  s.led_states.length = NUM_LEDS ∧ s.pixels.length = NUM_LEDS ∧
    ∀ i, i < NUM_LEDS →
      s.pixels.getD i black =
        (if s.led_states.getD i false then led_colors.getD i black else black)

/-- One iteration of external input to the `while True` loop of `main`:
whether the interrupt signal arrives before the iteration body, the two
encoder counter readings, and the failure oracle for the guarded audio
call. -/
structure IterIn where
  interrupt : Bool
  bSteps : ℤ
  vSteps : ℤ
  sinkFails : Bool

/-- The `except KeyboardInterrupt` block of `main`: print, force every
pixel to black (`pixels.fill((0,0,0))`), commit once (`pixels.show()`),
print, and fall out of `main` (the process then exits with status 0). -/
def shutdown (s : SysState) : SysState × List Effect :=
  ({ s with pixels := List.replicate NUM_LEDS black },
    [Effect.logShutdown, Effect.showStrip, Effect.logGoodbye])

/-- Outcome of running the control loop on a finite input prefix: either the
interrupt arrived and the process exited with the recorded status, or the
prefix was exhausted with the loop still running. -/
inductive LoopOutcome where
  | interrupted : SysState → List Effect → Nat → LoopOutcome
  | running : SysState → LoopOutcome
  deriving DecidableEq

/-- The body of one `while True` iteration: compare each encoder reading
against its snapshot, feed the delta to the integrator when it is non-zero,
and update the snapshot. -/
def loopIter (audio_available : Bool) (s : SysState) (lastB lastV : ℤ)
    (inp : IterIn) : SysState × ℤ × ℤ :=
  let p1 := if inp.bSteps ≠ lastB
    then ((update_brightness s (inp.bSteps - lastB)).1, inp.bSteps)
    else (s, lastB)
  let p2 := if inp.vSteps ≠ lastV
    then ((update_volume audio_available p1.1 (inp.vSteps - lastV) inp.sinkFails).1,
      inp.vSteps)
    else (p1.1, lastV)
  (p2.1, p1.2, p2.2)

/-- The `while True` loop of `main` under a `try` that catches only
`KeyboardInterrupt`: the loop body has no `break` or `return`, so the
interrupt is the only way out; when it arrives, `shutdown` runs and the
process exits with status 0. -/
def mainLoop (audio_available : Bool) :
    List IterIn → SysState → ℤ → ℤ → LoopOutcome
  | [], s, _, _ => LoopOutcome.running s
  | inp :: rest, s, lastB, lastV =>
    if inp.interrupt then
      let p := shutdown s
      LoopOutcome.interrupted p.1 p.2 0
    else
      let q := loopIter audio_available s lastB lastV inp
      mainLoop audio_available rest q.1 q.2.1 q.2.2

/-- Replace the audio-failure oracle of an operation by "succeeds"; used to
state that failures of the guarded audio call never influence the state. -/
def stripAudioFailures : Op → Op
  | Op.updVolume d _ => Op.updVolume d false
  | op => op

lemma update_brightness_mem (s : SysState) (d : ℤ) :
    0 ≤ (update_brightness s d).1.brightness ∧
      (update_brightness s d).1.brightness ≤ 1 := by
  simp only [update_brightness]
  split <;>
    exact ⟨le_max_left 0 _, max_le (by norm_num) (min_le_left 1 _)⟩

lemma update_volume_mem (a : Bool) (s : SysState) (d : ℤ) (f : Bool) :
    0 ≤ (update_volume a s d f).1.volume ∧
      (update_volume a s d f).1.volume ≤ 100 := by
  simp only [update_volume]
  split <;>
    exact ⟨le_max_left 0 _, max_le (by norm_num) (min_le_left 100 _)⟩

lemma update_brightness_volume (s : SysState) (d : ℤ) :
    (update_brightness s d).1.volume = s.volume := by
  simp only [update_brightness]
  split <;> rfl

lemma update_brightness_led_states (s : SysState) (d : ℤ) :
    (update_brightness s d).1.led_states = s.led_states := by
  simp only [update_brightness]
  split <;> rfl

lemma update_brightness_pixels (s : SysState) (d : ℤ) :
    (update_brightness s d).1.pixels = s.pixels := by
  simp only [update_brightness]
  split <;> rfl

lemma update_volume_brightness (a : Bool) (s : SysState) (d : ℤ) (f : Bool) :
    (update_volume a s d f).1.brightness = s.brightness := by
  simp only [update_volume]
  split <;> rfl

lemma update_volume_led_states (a : Bool) (s : SysState) (d : ℤ) (f : Bool) :
    (update_volume a s d f).1.led_states = s.led_states := by
  simp only [update_volume]
  split <;> rfl

lemma update_volume_pixels (a : Bool) (s : SysState) (d : ℤ) (f : Bool) :
    (update_volume a s d f).1.pixels = s.pixels := by
  simp only [update_volume]
  split <;> rfl

lemma toggle_led_brightness (s : SysState) (i : Nat) :
    (toggle_led s i).1.brightness = s.brightness := by
  simp only [toggle_led]
  split <;> rfl

lemma toggle_led_volume (s : SysState) (i : Nat) :
    (toggle_led s i).1.volume = s.volume := by
  simp only [toggle_led]
  split <;> rfl

lemma step_inBounds (a : Bool) (s : SysState) (op : Op) (h : inBounds s) :
    inBounds ((step a s op).1) := by
  cases op with
  | toggle i =>
      exact ⟨toggle_led_brightness s i ▸ h.1, toggle_led_brightness s i ▸ h.2.1,
        toggle_led_volume s i ▸ h.2.2.1, toggle_led_volume s i ▸ h.2.2.2⟩
  | updBrightness d =>
      have hb := update_brightness_mem s d
      have hv := update_brightness_volume s d
      exact ⟨hb.1, hb.2, hv ▸ h.2.2.1, hv ▸ h.2.2.2⟩
  | updVolume d f =>
      have hv := update_volume_mem a s d f
      have hb := update_volume_brightness a s d f
      exact ⟨hb ▸ h.1, hb ▸ h.2.1, hv.1, hv.2⟩

lemma run_inBounds (a : Bool) (ops : List Op) (s : SysState) (h : inBounds s) :
    inBounds (run a s ops) := by
  induction ops generalizing s with
  | nil => exact h
  | cons op rest ih => exact ih _ (step_inBounds a s op h)

/-- C1: for every sequence of operations applied from the initial state via
`update_brightness` and `update_volume` (interleaved with any toggles), the
stored brightness stays in `[0, 1]` and the stored volume stays in
`[0, 100]`: both are clamped on every update, for arbitrarily large deltas. -/
theorem C1_bounds_invariant (a : Bool) (ops : List Op) :
    0 ≤ (run a initState ops).brightness ∧
      (run a initState ops).brightness ≤ 1 ∧
      0 ≤ (run a initState ops).volume ∧
      (run a initState ops).volume ≤ 100 :=
  run_inBounds a ops initState (by constructor <;> norm_num [initState])

/-- C2: for every old value and integer delta whose resulting change exceeds
the threshold, `update_brightness` stores `clamp(old + d * 0.02, 0, 1)`, sets
the driver brightness scalar to that value and recommits the strip;
`update_volume` stores `clamp(old + d * 2, 0, 100)` and pushes `new / 100`
to the audio sink. -/
theorem C2_above_threshold_push :
    (∀ (s : SysState) (d : ℤ),
      1 / 100 < |max 0 (min 1 (s.brightness + (d : ℚ) * (2 / 100))) - s.brightness| →
      (update_brightness s d).1.brightness
          = max 0 (min 1 (s.brightness + (d : ℚ) * (2 / 100))) ∧
        (update_brightness s d).1.stripBrightness
          = max 0 (min 1 (s.brightness + (d : ℚ) * (2 / 100))) ∧
        Effect.showStrip ∈ (update_brightness s d).2) ∧
    (∀ (s : SysState) (d : ℤ),
      1 < |max 0 (min 100 (s.volume + d * 2)) - s.volume| →
      (update_volume true s d false).1.volume = max 0 (min 100 (s.volume + d * 2)) ∧
        Effect.sinkPush ((max 0 (min 100 (s.volume + d * 2)) : ℤ) / (100 : ℚ))
          ∈ (update_volume true s d false).2) := by
  constructor
  · intro s d h
    simp only [update_brightness]
    split
    · exact ⟨rfl, rfl, List.mem_cons_self _ _⟩
    · next hn => exact absurd h hn
  · intro s d h
    simp only [update_volume, set_system_volume]
    split
    · refine ⟨rfl, ?_⟩
      simp
    · next hn => exact absurd h hn

/-- Witness for C2 at the spec scenario: brightness `0.5`, delta `+5` gives
`0.6` (pushed and committed); volume `50`, delta `+5` gives `60` (pushed as
`0.6`). -/
theorem C2_above_threshold_push_witness :
    (1 / 100 <
        |max 0 (min 1 (initState.brightness + ((5 : ℤ) : ℚ) * (2 / 100))) -
          initState.brightness| ∧
      (update_brightness initState 5).1.brightness
          = max 0 (min 1 (initState.brightness + ((5 : ℤ) : ℚ) * (2 / 100))) ∧
        (update_brightness initState 5).1.stripBrightness
          = max 0 (min 1 (initState.brightness + ((5 : ℤ) : ℚ) * (2 / 100))) ∧
        Effect.showStrip ∈ (update_brightness initState 5).2) ∧
    (1 < |max 0 (min 100 (initState.volume + 5 * 2)) - initState.volume| ∧
      (update_volume true initState 5 false).1.volume
          = max 0 (min 100 (initState.volume + 5 * 2)) ∧
        Effect.sinkPush ((max 0 (min 100 (initState.volume + 5 * 2)) : ℤ) / (100 : ℚ))
          ∈ (update_volume true initState 5 false).2) :=
  ⟨⟨by norm_num [initState, abs_of_nonneg],
    C2_above_threshold_push.1 initState 5 (by norm_num [initState, abs_of_nonneg])⟩,
   ⟨by decide, C2_above_threshold_push.2 initState 5 (by decide)⟩⟩

/-- C3: when the resulting change is at most the threshold (`0.01` for
brightness, `1` for volume), no hardware/OS push happens: `update_brightness`
emits no effect at all (no driver write, no commit) and leaves the driver
scalar untouched, and `update_volume` emits no effect (no audio-sink call). -/
theorem C3_below_threshold_no_push :
    (∀ (s : SysState) (d : ℤ),
      |max 0 (min 1 (s.brightness + (d : ℚ) * (2 / 100))) - s.brightness| ≤ 1 / 100 →
      (update_brightness s d).2 = [] ∧
        (update_brightness s d).1.stripBrightness = s.stripBrightness) ∧
    (∀ (a : Bool) (s : SysState) (d : ℤ) (f : Bool),
      |max 0 (min 100 (s.volume + d * 2)) - s.volume| ≤ 1 →
      (update_volume a s d f).2 = []) := by
  constructor
  · intro s d h
    simp only [update_brightness]
    split
    · next hc => exact absurd hc (not_lt.mpr h)
    · exact ⟨rfl, rfl⟩
  · intro a s d f h
    simp only [update_volume]
    split
    · next hc => exact absurd hc (not_lt.mpr h)
    · rfl

/-- Witness for C3 at delta `0` from the initial state: change is `0`, below
both thresholds, and no effect is emitted. -/
theorem C3_below_threshold_no_push_witness :
    (|max 0 (min 1 (initState.brightness + ((0 : ℤ) : ℚ) * (2 / 100))) -
          initState.brightness| ≤ 1 / 100 ∧
      (update_brightness initState 0).2 = [] ∧
        (update_brightness initState 0).1.stripBrightness = initState.stripBrightness) ∧
    (|max 0 (min 100 (initState.volume + 0 * 2)) - initState.volume| ≤ 1 ∧
      (update_volume false initState 0 true).2 = []) :=
  ⟨⟨by norm_num [initState],
    C3_below_threshold_no_push.1 initState 0 (by norm_num [initState])⟩,
   ⟨by decide,
     C3_below_threshold_no_push.2 false initState 0 true (by decide)⟩⟩

/-- C4 as stated is false: the source assigns the clamped value to the
stored parameter before the threshold check, so a sub-threshold change that
comes from clamping still mutates the stored value.  Concretely, from volume
`99` (in bounds) a delta of `+1` clamps `101` to `100`: the change `1` is at
most the threshold `1`, yet the stored volume becomes `100 ≠ 99`. -/
theorem C4_no_op_counterexample :
    |max 0 (min 100 (({ initState with volume := 99 } : SysState).volume + 1 * 2)) -
        ({ initState with volume := 99 } : SysState).volume| ≤ 1 ∧
      (update_volume true { initState with volume := 99 } 1 false).1.volume ≠
        ({ initState with volume := 99 } : SysState).volume := by
  decide

/-- C4 amended: a sub-threshold update performs no push and emits no effect,
but the stored parameter is still assigned the clamped new value — it is
left unchanged only when that clamped value equals the old one. -/
theorem C4_below_threshold_state :
    (∀ (s : SysState) (d : ℤ),
      |max 0 (min 1 (s.brightness + (d : ℚ) * (2 / 100))) - s.brightness| ≤ 1 / 100 →
      (update_brightness s d).2 = [] ∧
        (update_brightness s d).1.brightness
          = max 0 (min 1 (s.brightness + (d : ℚ) * (2 / 100)))) ∧
    (∀ (a : Bool) (s : SysState) (d : ℤ) (f : Bool),
      |max 0 (min 100 (s.volume + d * 2)) - s.volume| ≤ 1 →
      (update_volume a s d f).2 = [] ∧
        (update_volume a s d f).1.volume = max 0 (min 100 (s.volume + d * 2))) := by
  constructor
  · intro s d h
    simp only [update_brightness]
    split
    · next hc => exact absurd hc (not_lt.mpr h)
    · exact ⟨rfl, rfl⟩
  · intro a s d f h
    simp only [update_volume]
    split
    · next hc => exact absurd hc (not_lt.mpr h)
    · exact ⟨rfl, rfl⟩

/-- Witness for the amended C4 at the counterexample input: no effect, yet
the stored volume is reassigned from `99` to the clamped `100`. -/
theorem C4_below_threshold_state_witness :
    |max 0 (min 100 (({ initState with volume := 99 } : SysState).volume + 1 * 2)) -
        ({ initState with volume := 99 } : SysState).volume| ≤ 1 ∧
      (update_volume true { initState with volume := 99 } 1 false).2 = [] ∧
      (update_volume true { initState with volume := 99 } 1 false).1.volume
        = max 0 (min 100 (({ initState with volume := 99 } : SysState).volume + 1 * 2)) :=
  ⟨by decide,
    C4_below_threshold_state.2 true { initState with volume := 99 } 1 false (by decide)⟩

lemma getD_set_self (l : List α) (i : Nat) (a d : α) (h : i < l.length) :
    (l.set i a).getD i d = a := by
  rw [List.getD_eq_getElem?_getD, List.getElem?_set_self h]
  rfl

lemma getD_set_ne (l : List α) {i j : Nat} (a d : α) (h : i ≠ j) :
    (l.set i a).getD j d = l.getD j d := by
  rw [List.getD_eq_getElem?_getD, List.getElem?_set_ne h, List.getD_eq_getElem?_getD]

lemma set_getD_self (l : List α) (i : Nat) (d : α) (h : i < l.length) :
    l.set i (l.getD i d) = l := by
  apply List.ext_getElem?
  intro j
  rcases eq_or_ne i j with rfl | hne
  · rw [List.getElem?_set_self h, List.getD_eq_getElem l d h, List.getElem?_eq_getElem h]
  · exact List.getElem?_set_ne hne

lemma toggle_led_fields (s : SysState) (i : Nat) :
    (toggle_led s i).1.led_states = s.led_states.set i (!(s.led_states.getD i false)) ∧
      (toggle_led s i).1.pixels
        = s.pixels.set i
            (if !(s.led_states.getD i false) then led_colors.getD i black else black) := by
  simp only [toggle_led]
  cases hb : s.led_states.getD i false <;> exact ⟨rfl, rfl⟩

lemma toggle_led_showStrip (s : SysState) (i : Nat) :
    Effect.showStrip ∈ (toggle_led s i).2 := by
  simp only [toggle_led]
  split <;> exact List.mem_cons_of_mem _ (List.mem_cons_self _ _)

lemma toggle_pixelInv (s : SysState) (k : Nat) (h : pixelInv s) :
    pixelInv ((toggle_led s k).1) := by
  obtain ⟨hl, hp, hinv⟩ := h
  obtain ⟨hls, hpx⟩ := toggle_led_fields s k
  refine ⟨by rw [hls, List.length_set, hl], by rw [hpx, List.length_set, hp], ?_⟩
  intro i hi
  rcases eq_or_ne k i with rfl | hne
  · have hkp : k < s.pixels.length := by rw [hp]; exact hi
    have hkl : k < s.led_states.length := by rw [hl]; exact hi
    rw [hpx, hls, getD_set_self _ _ _ _ hkp, getD_set_self _ _ _ _ hkl]
  · rw [hpx, hls, getD_set_ne _ _ _ hne, getD_set_ne _ _ _ hne]
    exact hinv i hi

lemma step_pixelInv (a : Bool) (s : SysState) (op : Op) (h : pixelInv s) :
    pixelInv ((step a s op).1) := by
  cases op with
  | toggle i => exact toggle_pixelInv s i h
  | updBrightness d =>
      have e1 := update_brightness_led_states s d
      have e2 := update_brightness_pixels s d
      show pixelInv ((update_brightness s d).1)
      exact ⟨by rw [e1]; exact h.1, by rw [e2]; exact h.2.1,
        fun i hi => by rw [e1, e2]; exact h.2.2 i hi⟩
  | updVolume d f =>
      have e1 := update_volume_led_states a s d f
      have e2 := update_volume_pixels a s d f
      show pixelInv ((update_volume a s d f).1)
      exact ⟨by rw [e1]; exact h.1, by rw [e2]; exact h.2.1,
        fun i hi => by rw [e1, e2]; exact h.2.2 i hi⟩

lemma run_pixelInv (a : Bool) (ops : List Op) (s : SysState) (h : pixelInv s) :
    pixelInv (run a s ops) := by
  induction ops generalizing s with
  | nil => exact h
  | cons op rest ih => exact ih _ (step_pixelInv a s op h)

lemma initState_pixelInv : pixelInv initState := by
  refine ⟨rfl, rfl, ?_⟩
  intro i hi
  simp only [NUM_LEDS] at hi
  interval_cases i <;> rfl

/-- C5: in every state reachable from startup by toggles and encoder
updates, each pixel slot `i < 9` holds the assigned color `led_colors[i]`
when `led_states[i]` is on and pure black `(0,0,0)` when it is off; and
every call to `toggle_led` emits the driver commit `show` in its effect
trace before returning. -/
theorem C5_rendered_color_invariant (a : Bool) (ops : List Op) :
    (∀ i, i < NUM_LEDS →
      (run a initState ops).pixels.getD i black =
        (if (run a initState ops).led_states.getD i false
          then led_colors.getD i black else black)) ∧
    ∀ (s : SysState) (i : Nat), Effect.showStrip ∈ (toggle_led s i).2 :=
  ⟨(run_pixelInv a ops initState initState_pixelInv).2.2,
    fun s i => toggle_led_showStrip s i⟩

/-- Witness for C5 after one toggle of LED 0: the slot shows the assigned
red, and the toggle trace contains the commit. -/
theorem C5_rendered_color_invariant_witness :
    (0 < NUM_LEDS ∧
      (run true initState [Op.toggle 0]).pixels.getD 0 black =
        (if (run true initState [Op.toggle 0]).led_states.getD 0 false
          then led_colors.getD 0 black else black)) ∧
    Effect.showStrip ∈ (toggle_led initState 0).2 :=
  ⟨⟨by decide, (C5_rendered_color_invariant true [Op.toggle 0]).1 0 (by decide)⟩,
    (C5_rendered_color_invariant true [Op.toggle 0]).2 initState 0⟩

/-- C6: from any state satisfying the rendering invariant at LED `i < 9`
(in particular any reachable state), toggling LED `i` twice restores both
its on/off state and its rendered pixel value — in fact the whole
`led_states` and `pixels` arrays are restored. -/
theorem C6_toggle_involution (s : SysState) (i : Nat)
    (hl : s.led_states.length = NUM_LEDS) (hp : s.pixels.length = NUM_LEDS)
    (hi : i < NUM_LEDS)
    (hpix : s.pixels.getD i black =
      (if s.led_states.getD i false then led_colors.getD i black else black)) :
    (toggle_led (toggle_led s i).1 i).1.led_states = s.led_states ∧
      (toggle_led (toggle_led s i).1 i).1.pixels = s.pixels := by
  have hil : i < s.led_states.length := by rw [hl]; exact hi
  have hip : i < s.pixels.length := by rw [hp]; exact hi
  obtain ⟨f1l, f1p⟩ := toggle_led_fields s i
  obtain ⟨f2l, f2p⟩ := toggle_led_fields (toggle_led s i).1 i
  constructor
  · rw [f2l, f1l, getD_set_self _ _ _ _ hil, Bool.not_not, List.set_set,
      set_getD_self _ _ _ hil]
  · rw [f2p, f1p, f1l, getD_set_self _ _ _ _ hil, Bool.not_not, ← hpix,
      List.set_set, set_getD_self _ _ _ hip]

/-- Witness for C6: toggling LED 2 twice from the startup state restores
the arrays exactly. -/
theorem C6_toggle_involution_witness :
    (toggle_led (toggle_led initState 2).1 2).1.led_states = initState.led_states ∧
      (toggle_led (toggle_led initState 2).1 2).1.pixels = initState.pixels :=
  C6_toggle_involution initState 2 (by decide) (by decide) (by decide) (by decide)

/-- C7: the interrupt is the only graceful exit of the control loop.  If it
arrives, the shutdown sequence runs: every pixel is forced to black, exactly
one final commit is issued (between the two shutdown messages), and the
process exits with status 0.  If it never arrives, the loop never
terminates (the input prefix is exhausted with the loop still running). -/
theorem C7_shutdown_only_exit :
    (∀ (a : Bool) (inputs : List IterIn) (s : SysState) (lastB lastV : ℤ)
      (s2 : SysState) (effs : List Effect) (code : Nat),
      mainLoop a inputs s lastB lastV = LoopOutcome.interrupted s2 effs code →
      s2.pixels = List.replicate NUM_LEDS black ∧
        effs = [Effect.logShutdown, Effect.showStrip, Effect.logGoodbye] ∧
        code = 0) ∧
    (∀ (a : Bool) (inputs : List IterIn) (s : SysState) (lastB lastV : ℤ),
      (∀ inp ∈ inputs, inp.interrupt = false) →
      ∃ s2, mainLoop a inputs s lastB lastV = LoopOutcome.running s2) := by
  constructor
  · intro a inputs
    induction inputs with
    | nil =>
        intro s lastB lastV s2 effs code h
        exact absurd h (by simp [mainLoop])
    | cons inp rest ih =>
        intro s lastB lastV s2 effs code h
        simp only [mainLoop] at h
        split at h
        · cases h
          exact ⟨rfl, rfl, rfl⟩
        · exact ih _ _ _ _ _ _ h
  · intro a inputs
    induction inputs with
    | nil =>
        intro s lastB lastV _
        exact ⟨s, rfl⟩
    | cons inp rest ih =>
        intro s lastB lastV h
        have hi : inp.interrupt = false := h inp (List.mem_cons_self _ _)
        simp only [mainLoop, hi, Bool.false_eq_true, if_false]
        exact ih _ _ _ (fun x hx => h x (List.mem_cons_of_mem _ hx))

/-- Witness for C7: with the interrupt in the first iteration the loop
exits through the shutdown sequence with status 0; with no interrupt in the
input prefix it is still running afterwards. -/
theorem C7_shutdown_only_exit_witness :
    (mainLoop true [⟨true, 0, 0, false⟩] initState 0 0 =
        LoopOutcome.interrupted (shutdown initState).1 (shutdown initState).2 0 ∧
      (shutdown initState).1.pixels = List.replicate NUM_LEDS black ∧
        (shutdown initState).2
          = [Effect.logShutdown, Effect.showStrip, Effect.logGoodbye] ∧
        (0 : Nat) = 0) ∧
    ((∀ inp ∈ ([⟨false, 0, 0, false⟩] : List IterIn), inp.interrupt = false) ∧
      ∃ s2, mainLoop true [⟨false, 0, 0, false⟩] initState 0 0
        = LoopOutcome.running s2) :=
  ⟨⟨rfl, C7_shutdown_only_exit.1 true [⟨true, 0, 0, false⟩] initState 0 0
      (shutdown initState).1 (shutdown initState).2 0 rfl⟩,
   ⟨by intro inp hinp; simp only [List.mem_singleton] at hinp; rw [hinp],
    C7_shutdown_only_exit.2 true [⟨false, 0, 0, false⟩] initState 0 0
      (by intro inp hinp; simp only [List.mem_singleton] at hinp; rw [hinp])⟩⟩

lemma update_volume_state_eq (a : Bool) (s : SysState) (d : ℤ) (f : Bool) :
    (update_volume a s d f).1 = (update_volume true s d false).1 := by
  simp only [update_volume]
  split <;> rfl

lemma run_cons (a : Bool) (s : SysState) (op : Op) (rest : List Op) :
    run a s (op :: rest) = run a ((step a s op).1) rest := rfl

lemma step_state_audio_independent (a : Bool) (s : SysState) (op : Op) :
    (step a s op).1 = (step true s (stripAudioFailures op)).1 := by
  cases op with
  | toggle i => rfl
  | updBrightness d => rfl
  | updVolume d f => exact update_volume_state_eq a s d f

lemma run_audio_independent (a : Bool) (ops : List Op) (s : SysState) :
    run a s ops = run true s (ops.map stripAudioFailures) := by
  induction ops generalizing s with
  | nil => rfl
  | cons op rest ih =>
      rw [run_cons, ih, step_state_audio_independent a s op, List.map_cons, run_cons]

/-- C8: audio failures are contained.  With audio unavailable (the startup
check failed) `set_system_volume` is a skip: no push, no error, no
exception; with audio available but the individual call failing, the error
is caught and logged and the function returns normally; and neither the
availability flag nor any per-call failure ever changes the resulting
state — LEDs, brightness and the stored volume evolve exactly as with a
healthy audio sink, so the loop continues unaffected. -/
theorem C8_audio_failures_contained :
    (∀ (f : Bool) (v : ℤ), set_system_volume false f v = []) ∧
    (∀ (v : ℤ), set_system_volume true true v = [Effect.logAudioError]) ∧
    (∀ (a : Bool) (s : SysState) (d : ℤ) (f : Bool),
      (update_volume a s d f).1 = (update_volume true s d false).1) ∧
    (∀ (a : Bool) (s : SysState) (ops : List Op),
      run a s ops = run true s (ops.map stripAudioFailures)) :=
  ⟨fun _ _ => rfl, fun _ => rfl,
    fun a s d f => update_volume_state_eq a s d f,
    fun a s ops => run_audio_independent a ops s⟩

/-- C9: the function `setup_switch_handlers` installs exactly 9 handlers; handler `i` is
literally `toggle_led` applied to index `i` (the index is bound per handler
by the `idx=i` default argument, not late-bound), every installed index is
below the length 9 of the state and color arrays, and `toggle_led i` flips
exactly LED `i`, leaving every other slot of both arrays unchanged. -/
theorem C9_handler_index_binding :
    setup_switch_handlers.length = NUM_LEDS ∧
    (∀ i, i < NUM_LEDS →
      setup_switch_handlers[i]? = some (fun s => toggle_led s i)) ∧
    (∀ (s : SysState) (i j : Nat), i ≠ j →
      (toggle_led s i).1.led_states.getD j false = s.led_states.getD j false ∧
        (toggle_led s i).1.pixels.getD j black = s.pixels.getD j black) ∧
    (∀ (s : SysState) (i : Nat), i < s.led_states.length →
      (toggle_led s i).1.led_states.getD i false = !(s.led_states.getD i false)) := by
  refine ⟨by simp [setup_switch_handlers], ?_, ?_, ?_⟩
  · intro i hi
    simp [setup_switch_handlers, List.getElem?_map, List.getElem?_range, hi]
  · intro s i j hne
    obtain ⟨hls, hpx⟩ := toggle_led_fields s i
    exact ⟨by rw [hls, getD_set_ne _ _ _ hne], by rw [hpx, getD_set_ne _ _ _ hne]⟩
  · intro s i hlen
    rw [(toggle_led_fields s i).1, getD_set_self _ _ _ _ hlen]

/-- Witness for C9 at indices 0 and 1 from the startup state. -/
theorem C9_handler_index_binding_witness :
    setup_switch_handlers.length = NUM_LEDS ∧
    (0 < NUM_LEDS ∧
      setup_switch_handlers[0]? = some (fun s => toggle_led s 0)) ∧
    ((0 : Nat) ≠ 1 ∧
      (toggle_led initState 0).1.led_states.getD 1 false
          = initState.led_states.getD 1 false ∧
        (toggle_led initState 0).1.pixels.getD 1 black
          = initState.pixels.getD 1 black) ∧
    (0 < initState.led_states.length ∧
      (toggle_led initState 0).1.led_states.getD 0 false
        = !(initState.led_states.getD 0 false)) :=
  ⟨C9_handler_index_binding.1,
   ⟨by decide, C9_handler_index_binding.2.1 0 (by decide)⟩,
   ⟨by decide, C9_handler_index_binding.2.2.1 initState 0 1 (by decide)⟩,
   ⟨by decide, C9_handler_index_binding.2.2.2 initState 0 (by decide)⟩⟩

lemma update_volume_volume (a : Bool) (s : SysState) (d : ℤ) (f : Bool) :
    (update_volume a s d f).1.volume = max 0 (min 100 (s.volume + d * 2)) := by
  simp only [update_volume]
  split <;> rfl

lemma step_volume_even (a : Bool) (s : SysState) (op : Op)
    (h : s.volume % 2 = 0) : (step a s op).1.volume % 2 = 0 := by
  cases op with
  | toggle i =>
      show (toggle_led s i).1.volume % 2 = 0
      rw [toggle_led_volume]
      exact h
  | updBrightness d =>
      show (update_brightness s d).1.volume % 2 = 0
      rw [update_brightness_volume]
      exact h
  | updVolume d f =>
      show (update_volume a s d f).1.volume % 2 = 0
      rw [update_volume_volume]
      omega

lemma run_volume_even (a : Bool) (ops : List Op) (s : SysState)
    (h : s.volume % 2 = 0) : (run a s ops).volume % 2 = 0 := by
  induction ops generalizing s with
  | nil => exact h
  | cons op rest ih => exact ih _ (step_volume_even a s op h)

/-- C10: from the initial volume 50, the stored volume is always even (every
update adds an even amount or clamps to the even bounds 0 and 100); hence
any call of `update_volume` that changes the stored value changes it by at
least 2, which exceeds the threshold 1, so the change is always pushed to
the audio sink — "value changed but not pushed" is unreachable for volume. -/
theorem C10_volume_even_always_pushed :
    (∀ (a : Bool) (ops : List Op), (run a initState ops).volume % 2 = 0) ∧
    (∀ (s : SysState) (d : ℤ), s.volume % 2 = 0 →
      (update_volume true s d false).1.volume ≠ s.volume →
      1 < |(update_volume true s d false).1.volume - s.volume| ∧
        Effect.sinkPush (((update_volume true s d false).1.volume : ℚ) / 100)
          ∈ (update_volume true s d false).2) := by
  constructor
  · intro a ops
    exact run_volume_even a ops initState (by decide)
  · intro s d hev hne
    have hv := update_volume_volume true s d false
    rw [hv] at hne ⊢
    have habs : 1 < |max 0 (min 100 (s.volume + d * 2)) - s.volume| := by
      rw [lt_abs]
      omega
    refine ⟨habs, ?_⟩
    simp only [update_volume, set_system_volume]
    rw [if_pos habs]
    simp

/-- Witness for C10 at volume 50, delta `+1`: the stored volume becomes 52,
a change of 2 > 1, and `0.52` is pushed to the sink. -/
theorem C10_volume_even_always_pushed_witness :
    initState.volume % 2 = 0 ∧
      (update_volume true initState 1 false).1.volume ≠ initState.volume ∧
      1 < |(update_volume true initState 1 false).1.volume - initState.volume| ∧
      Effect.sinkPush (((update_volume true initState 1 false).1.volume : ℚ) / 100)
        ∈ (update_volume true initState 1 false).2 := by
  have h := C10_volume_even_always_pushed.2 initState 1 (by decide) (by decide)
  exact ⟨by decide, by decide, h.1, h.2⟩

end SplitKeyboard
